import Mathlib

/-!
Verification of `common/elasticsearch/client_v7_bulk.go`: the Elasticsearch v7
bulk-processor adapter.  Go pointers and interfaces that may be nil are
embedded as `Option`; a Go slice is `Option (List α)` so that a nil slice is
distinguishable from an empty one; a Go map is `Option (List (String × α))`
(an association list of its entries); a run-time failure (nil-pointer
dereference) is embedded as an `Option`-valued result being `none`.
-/

/-- A Go slice: `none` is the nil slice, `some l` a non-nil slice with
elements `l`. -/
abbrev GoSlice (α : Type) : Type := Option (List α)

/-- A Go map with string keys: `none` is the nil map, `some entries` a
non-nil map given by its entry list. -/
abbrev GoMap (α : Type) : Type := Option (List (String × α))

/-- Go `append(s, x)`: appending to a nil slice yields a non-nil slice. -/
def goAppend {α : Type} (s : GoSlice α) (x : α) : GoSlice α :=
  some (s.getD [] ++ [x])

/-- Modelled from the spec: the operation-kind enumeration
(`GenericBulkableRequestType`, an integer-valued enum declared outside
`src/`).  The three known kinds are distinct integers; the value space is
open, as in Go. -/
abbrev GenericBulkableRequestType : Type := Int

/-- Modelled from the spec: the known kind for delete operations. -/
def BulkableDeleteRequest : GenericBulkableRequestType := 0

/-- Modelled from the spec: the known kind for index operations. -/
def BulkableIndexRequest : GenericBulkableRequestType := 1

/-- Modelled from the spec: the known kind for create operations. -/
def BulkableCreateRequest : GenericBulkableRequestType := 2

/-- Modelled from the spec: a generic bulkable operation
(`GenericBulkableAddRequest`, declared outside `src/`):
`{kind, index, id, versionType, version, doc}`.  The opaque document
payload is embedded as `Option String` (`none` is a nil document). -/
structure GenericBulkableAddRequest where
  Index : String := ""
  ID : String := ""
  Version : Int := 0
  VersionType : String := ""
  Doc : Option String := none
  RequestType : GenericBulkableRequestType := 0
  deriving Repr, DecidableEq

/-- The native v7 bulk delete request (`elastic.BulkDeleteRequest`), with
the fields this adapter sets.  `NewBulkDeleteRequest` gives the zero
value. -/
structure BulkDeleteRequest where
  index : String := ""
  id : String := ""
  versionType : String := ""
  version : Int := 0
  deriving Repr, DecidableEq

def NewBulkDeleteRequest : BulkDeleteRequest := {}

def BulkDeleteRequest.Index (r : BulkDeleteRequest) (s : String) : BulkDeleteRequest :=
  { r with index := s }

def BulkDeleteRequest.Id (r : BulkDeleteRequest) (s : String) : BulkDeleteRequest :=
  { r with id := s }

def BulkDeleteRequest.VersionType (r : BulkDeleteRequest) (s : String) : BulkDeleteRequest :=
  { r with versionType := s }

def BulkDeleteRequest.Version (r : BulkDeleteRequest) (v : Int) : BulkDeleteRequest :=
  { r with version := v }

/-- The native v7 bulk index request (`elastic.BulkIndexRequest`), with the
fields this adapter sets.  `NewBulkIndexRequest` starts with op-type
"index". -/
structure BulkIndexRequest where
  opType : String := "index"
  index : String := ""
  id : String := ""
  versionType : String := ""
  version : Int := 0
  doc : Option String := none
  deriving Repr, DecidableEq

def NewBulkIndexRequest : BulkIndexRequest := {}

def BulkIndexRequest.OpType (r : BulkIndexRequest) (s : String) : BulkIndexRequest :=
  { r with opType := s }

def BulkIndexRequest.Index (r : BulkIndexRequest) (s : String) : BulkIndexRequest :=
  { r with index := s }

def BulkIndexRequest.Id (r : BulkIndexRequest) (s : String) : BulkIndexRequest :=
  { r with id := s }

def BulkIndexRequest.VersionType (r : BulkIndexRequest) (s : String) : BulkIndexRequest :=
  { r with versionType := s }

def BulkIndexRequest.Version (r : BulkIndexRequest) (v : Int) : BulkIndexRequest :=
  { r with version := v }

def BulkIndexRequest.Doc (r : BulkIndexRequest) (d : Option String) : BulkIndexRequest :=
  { r with doc := d }

/-- The native `elastic.BulkableRequest` interface: a value of it is either
a delete request or an index request (the create path reuses the index
request with op-type "create"). -/
inductive ElasticBulkableRequest where
  | delete (r : BulkDeleteRequest)
  | index (r : BulkIndexRequest)
  deriving Repr, DecidableEq

/-- The generic bulkable request handed to caller hooks
(`GenericBulkableRequest`); the adapter passes the native request values
through unchanged, so it is the same type. -/
abbrev GenericBulkableRequest : Type := ElasticBulkableRequest

/-- Embeds `v7BulkProcessor.Add` (client_v7_bulk.go:86-113): the dispatch on
`request.RequestType` building the native request `req` that is handed to
`processor.Add`.  The result is that `req`: `none` embeds the nil
`elastic.BulkableRequest` interface left by an unmatched switch, so no
native operation is produced. -/
def v7BulkProcessorAdd (request : GenericBulkableAddRequest) : Option ElasticBulkableRequest :=
  if request.RequestType = BulkableDeleteRequest then
    some (.delete (NewBulkDeleteRequest.Index request.Index
      |>.Id request.ID
      |>.VersionType request.VersionType
      |>.Version request.Version))
  else if request.RequestType = BulkableIndexRequest then
    some (.index (NewBulkIndexRequest.Index request.Index
      |>.Id request.ID
      |>.VersionType request.VersionType
      |>.Version request.Version
      |>.Doc request.Doc))
  else if request.RequestType = BulkableCreateRequest then
    -- for bulk create request still calls the bulk index method
    -- with providing operation type
    some (.index (NewBulkIndexRequest.OpType ("create")
      |>.Index request.Index
      |>.Id request.ID
      |>.VersionType ("internal")
      |>.Doc request.Doc))
  else
    none

/-- A native Go error value (non-nil `error`): either the recognized
backend shape `*elastic.Error` carrying a structured status, or any other
error value, embedded with its message. -/
inductive GoError where
  | elasticError (Status : Int) (details : String)
  | other (msg : String)
  deriving Repr, DecidableEq

/-- Modelled from the spec: the "unknown" sentinel status code
(`unknownStatusCode`, declared outside `src/`). -/
def unknownStatusCode : Int := -1

/-- Modelled from the spec: the normalized error (`GenericError`, declared
outside `src/`): `{status, details}` where `details` is the underlying
error. -/
structure GenericError where
  Status : Int
  Details : GoError
  deriving Repr, DecidableEq

/-- Embeds `convertV7ErrorToGenericError` (client_v7_bulk.go:115-128).  A nil
error converts to nil; otherwise status is `unknownStatusCode` unless the
type switch recognizes `*elastic.Error`, and `Details` keeps the original
error. -/
def convertV7ErrorToGenericError (err : Option GoError) : Option GenericError :=
  match err with
  | none => none
  | some e =>
    let status : Int :=
      match e with
      | .elasticError s _ => s
      | _ => unknownStatusCode
    some { Status := status, Details := e }

/-- The native per-item result (`elastic.BulkResponseItem`), with the
fields this adapter reads.  The Go field `Type` is embedded as `docType`
(`Type` is reserved in Lean). -/
structure ElasticBulkResponseItem where
  Index : String := ""
  docType : String := ""
  Id : String := ""
  Version : Int := 0
  Result : String := ""
  SeqNo : Int := 0
  PrimaryTerm : Int := 0
  Status : Int := 0
  ForcedRefresh : Bool := false
  deriving Repr, DecidableEq

/-- Modelled from the spec: the generic per-item result
(`GenericBulkResponseItem`, declared outside `src/`), with one slot per
native field listed in the spec.  The Go field `Type` is embedded as
`docType`. -/
structure GenericBulkResponseItem where
  Index : String := ""
  docType : String := ""
  ID : String := ""
  Version : Int := 0
  Result : String := ""
  SeqNo : Int := 0
  PrimaryTerm : Int := 0
  Status : Int := 0
  ForcedRefresh : Bool := false
  deriving Repr, DecidableEq

/-- The native bulk response (`elastic.BulkResponse`):
`{Took, Errors, Items}` where `Items` is a slice of maps from
operation-kind label to a (possibly nil) item pointer. -/
structure ElasticBulkResponse where
  Took : Int := 0
  Errors : Bool := false
  Items : GoSlice (GoMap (Option ElasticBulkResponseItem)) := none
  deriving Repr, DecidableEq

/-- Modelled from the spec: the generic bulk response
(`GenericBulkResponse`, declared outside `src/`), the same shape over
generic items. -/
structure GenericBulkResponse where
  Took : Int := 0
  Errors : Bool := false
  Items : GoSlice (GoMap (Option GenericBulkResponseItem)) := none
  deriving Repr, DecidableEq

/-- Embeds `fromV7ToGenericBulkResponseItem` (client_v7_bulk.go:160-172): a
field-for-field copy of the dereferenced native item.  The argument is the
Go pointer; on a nil pointer the body dereferences nil, so the result is
`none` (no value is produced).  When defined, the Go function returns a
non-nil pointer, embedded as `some`. -/
def fromV7ToGenericBulkResponseItem (v : Option ElasticBulkResponseItem) :
    Option GenericBulkResponseItem :=
  match v with
  | none => none
  | some v => some
    { Index := v.Index
      docType := v.docType
      ID := v.Id
      Version := v.Version
      Result := v.Result
      SeqNo := v.SeqNo
      PrimaryTerm := v.PrimaryTerm
      Status := v.Status
      ForcedRefresh := v.ForcedRefresh }

/-- The `for k, v := range m` loop of `fromV7ToGenericBulkResponseItemMap`:
converts every entry value, storing the (non-nil) converted pointer; if any
item conversion fails (nil item pointer), the whole loop fails. -/
def itemMapEntriesLoop :
    List (String × Option ElasticBulkResponseItem) →
    Option (List (String × Option GenericBulkResponseItem))
  | [] => some []
  | (k, v) :: rest =>
    match fromV7ToGenericBulkResponseItem v, itemMapEntriesLoop rest with
    | some g, some grest => some ((k, some g) :: grest)
    | _, _ => none

/-- Embeds `fromV7ToGenericBulkResponseItemMap` (client_v7_bulk.go:149-158): a nil
map converts to a nil map; otherwise every entry value is converted.  The
outer `Option` is definedness (a nil item pointer in the map makes the
conversion fail). -/
def fromV7ToGenericBulkResponseItemMap (m : GoMap (Option ElasticBulkResponseItem)) :
    Option (GoMap (Option GenericBulkResponseItem)) :=
  match m with
  | none => some none
  | some entries => (itemMapEntriesLoop entries).map some

/-- The `for _, it := range items` loop of
`fromV7ToGenericBulkResponseItemMaps`: converts each map in order,
propagating failure. -/
def itemMapsLoop :
    List (GoMap (Option ElasticBulkResponseItem)) →
    Option (List (GoMap (Option GenericBulkResponseItem)))
  | [] => some []
  | m :: rest =>
    match fromV7ToGenericBulkResponseItemMap m, itemMapsLoop rest with
    | some gm, some grest => some (gm :: grest)
    | _, _ => none

/-- Embeds `fromV7ToGenericBulkResponseItemMaps` (client_v7_bulk.go:141-147):
starts from the nil slice `gitems` and appends the conversion of each map;
ranging over a nil slice iterates zero times.  The outer `Option` is
definedness. -/
def fromV7ToGenericBulkResponseItemMaps
    (items : GoSlice (GoMap (Option ElasticBulkResponseItem))) :
    Option (GoSlice (GoMap (Option GenericBulkResponseItem))) :=
  (itemMapsLoop (items.getD [])).map (fun l => l.foldl goAppend none)

/-- Embeds `fromV7toGenericBulkResponse` (client_v7_bulk.go:130-139): a nil native
response converts to a pointer to the zero-valued generic response;
otherwise `Took`, `Errors` are copied and `Items` converted.  The outer
`Option` is definedness; when defined, the Go function always returns a
non-nil pointer, embedded as `some`. -/
def fromV7toGenericBulkResponse (response : Option ElasticBulkResponse) :
    Option GenericBulkResponse :=
  match response with
  | none => some {}
  | some r =>
    (fromV7ToGenericBulkResponseItemMaps r.Items).map (fun gitems =>
      { Took := r.Took, Errors := r.Errors, Items := gitems })

/-- Embeds `fromV7ToGenericBulkableRequests` (client_v7_bulk.go:174-180): starts
from the nil slice `v7Reqs` and appends each native request unchanged
(the interface upcast). -/
def fromV7ToGenericBulkableRequests (requests : GoSlice ElasticBulkableRequest) :
    GoSlice GenericBulkableRequest :=
  (requests.getD []).foldl goAppend none

/-- The arguments the before-hook adapter passes to the caller's
`BeforeFunc`. -/
structure BeforeCallArgs where
  executionId : Int
  requests : GoSlice GenericBulkableRequest
  deriving Repr, DecidableEq

/-- Embeds `beforeFunc` of `RunBulkProcessor` (client_v7_bulk.go:38-40): invokes
the caller's before-hook with the engine's execution id and the translated
batch.  The result is the argument tuple of that invocation. -/
def beforeFuncArgs (executionId : Int) (requests : GoSlice ElasticBulkableRequest) :
    BeforeCallArgs :=
  { executionId := executionId
    requests := fromV7ToGenericBulkableRequests requests }

/-- The arguments the after-hook adapter passes to the caller's
`AfterFunc`.  `response` is the pointee of the (always non-nil) generic
response pointer; `gerr` is the (possibly nil) generic error pointer. -/
structure AfterCallArgs where
  executionId : Int
  requests : GoSlice GenericBulkableRequest
  response : GenericBulkResponse
  gerr : Option GenericError
  deriving Repr, DecidableEq

/-- Embeds `afterFunc` of `RunBulkProcessor` (client_v7_bulk.go:42-49): invokes
the caller's after-hook with the engine's execution id, the translated
batch, the converted response and the converted error.  The outer `Option`
is definedness of the response conversion. -/
def afterFuncArgs (executionId : Int) (requests : GoSlice ElasticBulkableRequest)
    (response : Option ElasticBulkResponse) (err : Option GoError) :
    Option AfterCallArgs :=
  (fromV7toGenericBulkResponse response).map (fun gresp =>
    { executionId := executionId
      requests := fromV7ToGenericBulkableRequests requests
      response := gresp
      gerr := convertV7ErrorToGenericError err })

/-- A concrete create-kind request used to exercise the theorems on a
closed input. -/
def sampleCreateReq : GenericBulkableAddRequest :=
  { Index := "idx", ID := "d1", VersionType := "external", Version := 5,
    Doc := some "docA", RequestType := BulkableCreateRequest }

/-- A concrete delete-kind request used to exercise the theorems on a
closed input. -/
def sampleDeleteReq : GenericBulkableAddRequest :=
  { Index := "idx", ID := "d2", VersionType := "external", Version := 7,
    Doc := none, RequestType := BulkableDeleteRequest }

/-- A concrete native item used to exercise the theorems on a closed
input. -/
def sampleItem : ElasticBulkResponseItem :=
  { Index := "idx", docType := "_doc", Id := "d1", Version := 3,
    Result := "created", SeqNo := 11, PrimaryTerm := 2, Status := 201,
    ForcedRefresh := true }

/-- A concrete native response with one populated item map, used to
exercise the theorems on a closed input. -/
def sampleResponse : ElasticBulkResponse :=
  { Took := 9, Errors := false,
    Items := some [some [("create", some sampleItem)]] }

/-- A concrete native batch used to exercise the callback-bridge theorems
on a closed input. -/
def sampleBatch : GoSlice ElasticBulkableRequest :=
  some [.delete { index := "idx", id := "d2" }, .index { id := "d1" }]

/-- The after-hook argument tuple produced by the bridge on `sampleBatch`
with a nil native response and a nil native error. -/
def sampleAfterArgs : AfterCallArgs :=
  { executionId := 7, requests := sampleBatch, response := {}, gerr := none }

/-- A concrete native response whose single item map holds a nil item
pointer. -/
def badResponse : ElasticBulkResponse :=
  { Took := 1, Errors := true, Items := some [some [("index", none)]] }

/-- Spec-side description of a converted item: a field-for-field copy of
the native item, one slot per field the spec lists for `ItemResult`. -/
def specCopyItem (v : ElasticBulkResponseItem) : GenericBulkResponseItem :=
  { Index := v.Index
    docType := v.docType
    ID := v.Id
    Version := v.Version
    Result := v.Result
    SeqNo := v.SeqNo
    PrimaryTerm := v.PrimaryTerm
    Status := v.Status
    ForcedRefresh := v.ForcedRefresh }

/-- Spec-side description of a converted item map: nil maps to nil, and a
non-nil map keeps its entries in order, with the same keys, each value the
field-for-field copy of the native value. -/
def specCopyItemMap (m : GoMap (Option ElasticBulkResponseItem)) :
    GoMap (Option GenericBulkResponseItem) :=
  m.map (fun entries => entries.map (fun kv => (kv.1, kv.2.map specCopyItem)))

theorem foldl_goAppend_getD {α : Type} (l : List α) :
    ∀ s : GoSlice α, (l.foldl goAppend s).getD [] = s.getD [] ++ l := by
  induction l with
  | nil => intro s; simp
  | cons x rest ih =>
    intro s
    rw [List.foldl_cons, ih]
    simp [goAppend]

theorem itemMapEntriesLoop_eq_of_wf (entries : List (String × Option ElasticBulkResponseItem)) :
    (∀ kv ∈ entries, kv.2.isSome = true) →
    itemMapEntriesLoop entries =
      some (entries.map (fun kv => (kv.1, kv.2.map specCopyItem))) := by
  induction entries with
  | nil => intro _; rfl
  | cons kv rest ih =>
    intro h
    obtain ⟨k, v⟩ := kv
    have hv : v.isSome = true := h (k, v) (List.mem_cons_self _ _)
    obtain ⟨x, rfl⟩ := Option.isSome_iff_exists.mp hv
    have hrest := ih (fun kv hkv => h kv (List.mem_cons_of_mem _ hkv))
    simp [itemMapEntriesLoop, fromV7ToGenericBulkResponseItem, specCopyItem, hrest]

theorem fromV7ToGenericBulkResponseItemMap_eq_of_wf
    (m : GoMap (Option ElasticBulkResponseItem))
    (h : ∀ kv ∈ m.getD [], kv.2.isSome = true) :
    fromV7ToGenericBulkResponseItemMap m = some (specCopyItemMap m) := by
  cases m with
  | none => rfl
  | some entries =>
    have he := itemMapEntriesLoop_eq_of_wf entries (by simpa using h)
    simp [fromV7ToGenericBulkResponseItemMap, specCopyItemMap, he]

theorem itemMapsLoop_eq_of_wf (l : List (GoMap (Option ElasticBulkResponseItem))) :
    (∀ m ∈ l, ∀ kv ∈ m.getD [], kv.2.isSome = true) →
    itemMapsLoop l = some (l.map specCopyItemMap) := by
  induction l with
  | nil => intro _; rfl
  | cons m rest ih =>
    intro h
    have hm := fromV7ToGenericBulkResponseItemMap_eq_of_wf m
      (h m (List.mem_cons_self _ _))
    have hrest := ih (fun m hmem => h m (List.mem_cons_of_mem _ hmem))
    simp [itemMapsLoop, hm, hrest]

/-- C1: for every `GenericBulkableAddRequest` whose `RequestType` is
outside the known set (delete, index, create), the switch in `Add` matches
no case, so the native request handed to the engine is the nil interface:
no native operation is enqueued, and `Add` returns no signal (its Go
return type is empty). -/
theorem add_unknown_kind_enqueues_nothing (request : GenericBulkableAddRequest)
    (h1 : request.RequestType ≠ BulkableDeleteRequest)
    (h2 : request.RequestType ≠ BulkableIndexRequest)
    (h3 : request.RequestType ≠ BulkableCreateRequest) :
    v7BulkProcessorAdd request = none := by
  unfold v7BulkProcessorAdd
  rw [if_neg h1, if_neg h2, if_neg h3]

theorem add_unknown_kind_enqueues_nothing_witness :
    ((99 : Int) ≠ BulkableDeleteRequest
      ∧ (99 : Int) ≠ BulkableIndexRequest
      ∧ (99 : Int) ≠ BulkableCreateRequest)
    ∧ v7BulkProcessorAdd { RequestType := 99 } = none :=
  ⟨⟨by decide, by decide, by decide⟩,
    add_unknown_kind_enqueues_nothing { RequestType := 99 }
      (by decide) (by decide) (by decide)⟩

/-- C2: a recognized `*elastic.Error` converts to a generic error whose
`Status` is the error's structured status; every other non-nil error
converts to one whose `Status` is the unknown sentinel; a nil error
converts to nil. -/
theorem convert_error_status_spec :
    convertV7ErrorToGenericError none = none
    ∧ (∀ s d, ∃ g, convertV7ErrorToGenericError (some (.elasticError s d)) = some g
        ∧ g.Status = s)
    ∧ (∀ m, ∃ g, convertV7ErrorToGenericError (some (.other m)) = some g
        ∧ g.Status = unknownStatusCode) :=
  ⟨rfl, fun _ _ => ⟨_, rfl, rfl⟩, fun _ => ⟨_, rfl, rfl⟩⟩

/-- C3: a create-kind request translates to a native index request with
op-type "create" and versionType "internal"; the translated request does
not depend on the caller-supplied `VersionType` or `Version` (its version
field keeps the native default 0). -/
theorem add_create_forces_internal_version_type (request : GenericBulkableAddRequest)
    (h : request.RequestType = BulkableCreateRequest) :
    v7BulkProcessorAdd request = some (.index
      { opType := "create", index := request.Index, id := request.ID,
        versionType := "internal", version := 0, doc := request.Doc })
    ∧ (∀ vt v, v7BulkProcessorAdd { request with VersionType := vt, Version := v }
        = v7BulkProcessorAdd request) := by
  constructor
  · simp [v7BulkProcessorAdd, h, BulkableDeleteRequest, BulkableIndexRequest,
      BulkableCreateRequest, NewBulkIndexRequest, BulkIndexRequest.OpType,
      BulkIndexRequest.Index, BulkIndexRequest.Id, BulkIndexRequest.VersionType,
      BulkIndexRequest.Doc]
  · intro vt v
    simp [v7BulkProcessorAdd, h, BulkableDeleteRequest, BulkableIndexRequest,
      BulkableCreateRequest]

theorem add_create_forces_internal_version_type_witness :
    sampleCreateReq.RequestType = BulkableCreateRequest
    ∧ (v7BulkProcessorAdd sampleCreateReq = some (.index
        { opType := "create", index := sampleCreateReq.Index,
          id := sampleCreateReq.ID, versionType := "internal", version := 0,
          doc := sampleCreateReq.Doc })
      ∧ (∀ vt v,
          v7BulkProcessorAdd { sampleCreateReq with VersionType := vt, Version := v }
            = v7BulkProcessorAdd sampleCreateReq)) :=
  ⟨rfl, add_create_forces_internal_version_type sampleCreateReq rfl⟩

/-- C4: a nil native bulk response converts to the (non-nil) zero-valued
generic response, so after-hooks can dereference it; a nil native error
converts to an absent generic error, while every non-nil native error
converts to a present one, so presence of the generic error marks
failure. -/
theorem nil_response_zero_valued_and_nil_error_absent :
    fromV7toGenericBulkResponse none
      = some { Took := 0, Errors := false, Items := none }
    ∧ convertV7ErrorToGenericError none = none
    ∧ (∀ e, (convertV7ErrorToGenericError (some e)).isSome = true) :=
  ⟨rfl, rfl, fun _ => rfl⟩

/-- C6: a delete-kind request translates to a native delete request that
carries exactly the caller's index, id, versionType and version; the
translation does not depend on the `Doc` field (the native delete request
has no document slot). -/
theorem add_delete_request_fields (request : GenericBulkableAddRequest)
    (h : request.RequestType = BulkableDeleteRequest) :
    v7BulkProcessorAdd request = some (.delete
      { index := request.Index, id := request.ID,
        versionType := request.VersionType, version := request.Version })
    ∧ (∀ d,
        v7BulkProcessorAdd { request with Doc := d }
          = v7BulkProcessorAdd request) := by
  constructor
  · simp [v7BulkProcessorAdd, h, NewBulkDeleteRequest, BulkDeleteRequest.Index,
      BulkDeleteRequest.Id, BulkDeleteRequest.VersionType,
      BulkDeleteRequest.Version]
  · intro d
    simp [v7BulkProcessorAdd, h, BulkableDeleteRequest, BulkableIndexRequest,
      BulkableCreateRequest]

theorem add_delete_request_fields_witness :
    sampleDeleteReq.RequestType = BulkableDeleteRequest
    ∧ (v7BulkProcessorAdd sampleDeleteReq = some (.delete
        { index := sampleDeleteReq.Index, id := sampleDeleteReq.ID,
          versionType := sampleDeleteReq.VersionType,
          version := sampleDeleteReq.Version })
      ∧ (∀ d,
          v7BulkProcessorAdd { sampleDeleteReq with Doc := d }
            = v7BulkProcessorAdd sampleDeleteReq)) :=
  ⟨rfl, add_delete_request_fields sampleDeleteReq rfl⟩

/-- C7: every non-nil native error converts to a generic error whose
`Details` is the original error itself, in particular also in the
recognized `*elastic.Error` case where `Status` is populated. -/
theorem convert_error_keeps_details :
    (∀ e : GoError, ∃ g, convertV7ErrorToGenericError (some e) = some g
      ∧ g.Details = e)
    ∧ (∀ s d, ∃ g,
        convertV7ErrorToGenericError (some (.elasticError s d)) = some g
        ∧ g.Details = .elasticError s d ∧ g.Status = s) :=
  ⟨fun _ => ⟨_, rfl, rfl⟩, fun _ _ => ⟨_, rfl, rfl, rfl⟩⟩

/-- C10: converting an empty (or nil) native item list, and likewise an
empty (or nil) native request batch, yields the nil (absent) generic
slice: at the generic interface an empty batch is indistinguishable from
an absent one. -/
theorem empty_batch_converts_to_absent_slice :
    fromV7ToGenericBulkResponseItemMaps (some []) = some none
    ∧ fromV7ToGenericBulkableRequests (some []) = none
    ∧ fromV7ToGenericBulkResponseItemMaps none = some none
    ∧ fromV7ToGenericBulkableRequests none = none :=
  ⟨rfl, rfl, rfl, rfl⟩

/-- C5: for a native response with a non-nil item list whose item pointers
are populated, the converted response copies `Took` and `Errors`, and its
item list is the order-preserving image of the native one: equal length,
same keys per map, and every `ItemResult` field copied
(`specCopyItemMap` is manifestly key-, order- and field-preserving). -/
theorem response_conversion_preserves_items (r : ElasticBulkResponse)
    (l : List (GoMap (Option ElasticBulkResponseItem)))
    (h1 : r.Items = some l)
    (h2 : ∀ m ∈ l, ∀ kv ∈ m.getD [], kv.2.isSome = true) :
    ∃ gr : GenericBulkResponse,
      fromV7toGenericBulkResponse (some r) = some gr
      ∧ gr.Took = r.Took
      ∧ gr.Errors = r.Errors
      ∧ gr.Items.getD [] = l.map specCopyItemMap := by
  have hl := itemMapsLoop_eq_of_wf l h2
  have hmaps : fromV7ToGenericBulkResponseItemMaps r.Items
      = some ((l.map specCopyItemMap).foldl goAppend none) := by
    simp [fromV7ToGenericBulkResponseItemMaps, h1, hl]
  refine ⟨{ Took := r.Took, Errors := r.Errors,
            Items := (l.map specCopyItemMap).foldl goAppend none },
    ?_, rfl, rfl, ?_⟩
  · simp [fromV7toGenericBulkResponse, hmaps]
  · simpa using foldl_goAppend_getD (l.map specCopyItemMap) none

theorem response_conversion_preserves_items_witness :
    (sampleResponse.Items = some [some [("create", some sampleItem)]]
      ∧ (∀ m ∈ [some [("create", some sampleItem)]],
          ∀ kv ∈ m.getD [], kv.2.isSome = true))
    ∧ (∃ gr : GenericBulkResponse,
        fromV7toGenericBulkResponse (some sampleResponse) = some gr
        ∧ gr.Took = sampleResponse.Took
        ∧ gr.Errors = sampleResponse.Errors
        ∧ gr.Items.getD []
            = [some [("create", some sampleItem)]].map specCopyItemMap) :=
  ⟨⟨rfl, by decide⟩,
    response_conversion_preserves_items sampleResponse _ rfl (by decide)⟩

/-- C8: the bridge passes the engine's execution id to both hooks
unmodified, and the generic batch handed to the after-hook is the
translation of the same native batch as the before-hook receives for that
execution id — elementwise identical, hence of equal length and order. -/
theorem callback_bridge_same_id_and_batch
    (executionId : Int) (requests : GoSlice ElasticBulkableRequest)
    (response : Option ElasticBulkResponse) (err : Option GoError)
    (args : AfterCallArgs)
    (h : afterFuncArgs executionId requests response err = some args) :
    (beforeFuncArgs executionId requests).executionId = executionId
    ∧ args.executionId = executionId
    ∧ args.requests = (beforeFuncArgs executionId requests).requests
    ∧ args.requests.getD [] = requests.getD [] := by
  unfold afterFuncArgs at h
  obtain ⟨gresp, hg, rfl⟩ := Option.map_eq_some'.mp h
  refine ⟨rfl, rfl, rfl, ?_⟩
  simp [beforeFuncArgs, fromV7ToGenericBulkableRequests, foldl_goAppend_getD]

theorem callback_bridge_same_id_and_batch_witness :
    afterFuncArgs 7 sampleBatch none none = some sampleAfterArgs
    ∧ ((beforeFuncArgs 7 sampleBatch).executionId = 7
      ∧ sampleAfterArgs.executionId = 7
      ∧ sampleAfterArgs.requests = (beforeFuncArgs 7 sampleBatch).requests
      ∧ sampleAfterArgs.requests.getD [] = sampleBatch.getD []) :=
  ⟨by decide,
    callback_bridge_same_id_and_batch 7 sampleBatch none none sampleAfterArgs
      (by decide)⟩

/-- C9, as stated, is false: converting a response whose item map holds a
nil item pointer dereferences nil in `fromV7ToGenericBulkResponseItem`, so
the conversion produces no result (the claim includes such maps among the
valid native values). -/
theorem conversion_fails_on_nil_item_counterexample :
    fromV7toGenericBulkResponse (some badResponse) = none := by decide

/-- C9 (amended): the response conversion is total for every native value
whose item-map values are non-nil pointers — covering nil responses, nil
item lists and nil item maps; only a map entry holding a nil item pointer
makes it undefined. -/
theorem conversion_total_on_populated_items (response : Option ElasticBulkResponse)
    (h : ∀ m ∈ response.elim [] (fun r => r.Items.getD []),
      ∀ kv ∈ m.getD [], kv.2.isSome = true) :
    (fromV7toGenericBulkResponse response).isSome = true := by
  cases response with
  | none => rfl
  | some r =>
    have hl := itemMapsLoop_eq_of_wf (r.Items.getD []) (by simpa using h)
    simp [fromV7toGenericBulkResponse, fromV7ToGenericBulkResponseItemMaps, hl]

theorem conversion_total_on_populated_items_witness :
    (∀ m ∈ (some sampleResponse : Option ElasticBulkResponse).elim []
        (fun r => r.Items.getD []),
      ∀ kv ∈ m.getD [], kv.2.isSome = true)
    ∧ (fromV7toGenericBulkResponse (some sampleResponse)).isSome = true :=
  ⟨by decide, conversion_total_on_populated_items (some sampleResponse) (by decide)⟩
